import Mathlib

/-!
Shallow embedding of the fastapi-obs demo service (src/app/main.py) and its
traffic generator (src/test_api.py).

Each HTTP handler of main.py is modelled as a pure function from its inputs
(the path parameter, plus the values drawn from the process randomness and the
wall clock during the call) to the pair of
  - the ordered list of observable instrumentation events it emits
    (counter increments, span opens, span attribute writes, sleeps, histogram
    observations, span closes), and
  - the HTTP result (a 200 payload, or an HTTPException status with detail).

Randomness is explicit: random.uniform(a, b) is modelled as a + (b - a) * u
for a unit sample u with 0 <= u < 1, random.random() as the unit sample
itself, and random.randint(1000, 9999) as an integer parameter constrained to
that range. Wall-clock time is idealised: only time.sleep advances it, so an
elapsed time measured around a block equals the sum of the sleeps inside it.
Python "with tracer.start_as_current_span(...)" is a context manager, so the
span-end event is emitted on every exit path, including exception exits; the
event traces below reproduce that.
-/

/-- Value of a span attribute: string, float (as a rational), int, or bool,
matching the value types written by main.py. -/
inductive AttrVal
  | str (s : String)
  | num (q : ℚ)
  | int (n : ℤ)
  | bool (b : Bool)
  deriving DecidableEq, Repr

/-- One observable instrumentation event emitted while a handler runs. -/
inductive Event
  | counterInc (method route : String)
  | spanStart (name : String)
  | setAttr (span key : String) (value : AttrVal)
  | sleep (seconds : ℚ)
  | observe (seconds : ℚ)
  | spanEnd (name : String)
  deriving DecidableEq, Repr

/-- Result of one HTTP call: a 200 response carrying a payload, or an
HTTPException carrying a status code and a detail message. -/
inductive HttpResult (α : Type)
  | ok (payload : α)
  | httpError (statusCode : ℕ) (detail : String)
  deriving DecidableEq, Repr

/-- HTTP status code of a result: 200 for a plain return, the exception's
status code otherwise. -/
def httpStatus {α : Type} : HttpResult α → ℕ
  | HttpResult.ok _ => 200
  | HttpResult.httpError c _ => c

/-- random.uniform(a, b): a + (b - a) * u for a unit sample u in [0, 1). -/
def pyUniform (a b u : ℚ) : ℚ := a + (b - a) * u

/-- Payload returned by GET /api/users/\x7buser_id\x7d on success. -/
structure UserPayload where
  user_id : ℤ
  username : String
  email : String
  processing_time : ℚ
  deriving DecidableEq, Repr

/-- Payload returned by POST /api/users. -/
structure CreatedUserPayload where
  user_id : ℤ
  username : String
  email : String
  created : Bool
  processing_time : ℚ
  deriving DecidableEq, Repr

/-- Payload of the endpoints that return a single message field. -/
structure MessagePayload where
  message : String
  deriving DecidableEq, Repr

/-- Payload returned by GET /health. -/
structure HealthPayload where
  status : String
  timestamp : ℚ
  deriving DecidableEq, Repr

/-- Response of GET /custom-metrics: the Prometheus exposition snapshot
(its text body is out of scope; only the media type is recorded). -/
structure MetricsSnapshot where
  media_type : String
  deriving DecidableEq, Repr

/-- Handler of GET / (main.py, root). -/
def root : List Event × HttpResult MessagePayload :=
  ([Event.counterInc "GET" "/"],
   HttpResult.ok { message := "Hello World! This is a FastAPI app with metrics." })

/-- Handler of GET /health (main.py, health_check); t is the time.time()
reading taken during the call. -/
def health_check (t : ℚ) : List Event × HttpResult HealthPayload :=
  ([Event.counterInc "GET" "/health"],
   HttpResult.ok { status := "healthy", timestamp := t })

/-- Handler of GET /api/users/\x7buser_id\x7d (main.py, get_user); u is the unit
sample behind random.uniform(0.1, 0.5). The span context manager closes the
span on both exit paths; the HTTPException path skips the observe call. -/
def get_user (user_id : ℤ) (u : ℚ) : List Event × HttpResult UserPayload :=
  let processing_time := pyUniform (1/10) (1/2) u
  let pre : List Event :=
    [Event.counterInc "GET" "/api/users/\x7buser_id\x7d",
     Event.spanStart "simulate_database_query",
     Event.setAttr "simulate_database_query" "user.id" (AttrVal.int user_id),
     Event.setAttr "simulate_database_query" "db.operation" (AttrVal.str "select"),
     Event.setAttr "simulate_database_query" "db.table" (AttrVal.str "users"),
     Event.setAttr "simulate_database_query" "db.duration_ms"
       (AttrVal.num (processing_time * 1000)),
     Event.sleep processing_time]
  if user_id = 404 then
    (pre ++
      [Event.setAttr "simulate_database_query" "error" (AttrVal.bool true),
       Event.setAttr "simulate_database_query" "error.message"
         (AttrVal.str "User not found"),
       Event.spanEnd "simulate_database_query"],
     HttpResult.httpError 404 "User not found")
  else
    (pre ++
      [Event.setAttr "simulate_database_query" "user.found" (AttrVal.bool true),
       Event.spanEnd "simulate_database_query",
       Event.observe processing_time],
     HttpResult.ok
       { user_id := user_id,
         username := "user_" ++ toString user_id,
         email := "user_" ++ toString user_id ++ "@example.com",
         processing_time := processing_time })

/-- Handler of POST /api/users (main.py, create_user); new_user_id is the
random.randint(1000, 9999) draw, uv and ud the unit samples behind
random.uniform(0.05, 0.15) and random.uniform(0.15, 0.65). The measured
processing_time is the elapsed wall time, i.e. the sum of both sleeps in the
idealised clock. -/
def create_user (new_user_id : ℤ) (uv ud : ℚ) :
    List Event × HttpResult CreatedUserPayload :=
  let validation_time := pyUniform (1/20) (3/20) uv
  let db_processing_time := pyUniform (3/20) (13/20) ud
  let processing_time := validation_time + db_processing_time
  ([Event.counterInc "POST" "/api/users",
    Event.spanStart "validate_user_data",
    Event.setAttr "validate_user_data" "user.id" (AttrVal.int new_user_id),
    Event.sleep validation_time,
    Event.setAttr "validate_user_data" "validation.duration_ms"
      (AttrVal.num (validation_time * 1000)),
    Event.setAttr "validate_user_data" "validation.passed" (AttrVal.bool true),
    Event.spanEnd "validate_user_data",
    Event.spanStart "database_insert",
    Event.setAttr "database_insert" "user.id" (AttrVal.int new_user_id),
    Event.setAttr "database_insert" "db.operation" (AttrVal.str "insert"),
    Event.setAttr "database_insert" "db.table" (AttrVal.str "users"),
    Event.sleep db_processing_time,
    Event.setAttr "database_insert" "db.duration_ms"
      (AttrVal.num (db_processing_time * 1000)),
    Event.setAttr "database_insert" "db.rows_affected" (AttrVal.int 1),
    Event.spanEnd "database_insert",
    Event.observe processing_time],
   HttpResult.ok
     { user_id := new_user_id,
       username := "user_" ++ toString new_user_id,
       email := "user_" ++ toString new_user_id ++ "@example.com",
       created := true,
       processing_time := processing_time })

/-- Handler of GET /api/simulate-error (main.py, simulate_error); u is the
random.random() draw in [0, 1). -/
def simulate_error (u : ℚ) : List Event × HttpResult MessagePayload :=
  ([Event.counterInc "GET" "/api/simulate-error"],
   if u < 3/10 then HttpResult.httpError 500 "Simulated internal server error"
   else HttpResult.ok { message := "Success! No error this time." })

/-- Handler of GET /custom-metrics (main.py, custom_metrics): returns the
exposition snapshot and emits no instrumentation events of its own. -/
def custom_metrics : List Event × HttpResult MetricsSnapshot :=
  ([], HttpResult.ok { media_type := "text/plain; version=0.0.4; charset=utf-8" })

/-- The (method, route) label pairs of the counter-increment events in a
trace, in emission order. -/
def counterIncs (es : List Event) : List (String × String) :=
  es.filterMap fun e =>
    match e with
    | Event.counterInc m r => some (m, r)
    | _ => none

/-- Number of counter-increment events in a trace. -/
def counterIncCount (es : List Event) : ℕ := (counterIncs es).length

/-- Names of the spans opened in a trace, in emission order. -/
def spanStarts (es : List Event) : List String :=
  es.filterMap fun e =>
    match e with
    | Event.spanStart n => some n
    | _ => none

/-- Names of the spans closed in a trace, in emission order. -/
def spanEnds (es : List Event) : List String :=
  es.filterMap fun e =>
    match e with
    | Event.spanEnd n => some n
    | _ => none

/-- Number of histogram duration observations in a trace. -/
def observeCount (es : List Event) : ℕ :=
  (es.filterMap fun e =>
    match e with
    | Event.observe q => some q
    | _ => none).length

/-- The routes served by handlers defined in main.py. -/
inductive Endpoint
  | root
  | health
  | getUser (user_id : ℤ)
  | createUser
  | simulateError
  | customMetrics
  deriving DecidableEq, Repr

/-- Environment of one request: the random draws and the clock reading the
handler may consume. -/
structure Env where
  u : ℚ
  uv : ℚ
  ud : ℚ
  nid : ℤ
  t : ℚ
  deriving DecidableEq, Repr

/-- Event trace emitted by dispatching one request to an endpoint. -/
def endpointEvents : Endpoint → Env → List Event
  | Endpoint.root, _ => (root).1
  | Endpoint.health, env => (health_check env.t).1
  | Endpoint.getUser user_id, env => (get_user user_id env.u).1
  | Endpoint.createUser, env => (create_user env.nid env.uv env.ud).1
  | Endpoint.simulateError, env => (simulate_error env.u).1
  | Endpoint.customMetrics, _ => (custom_metrics).1

/-- The (method, route) counter label of each endpoint, as written in the
REQUEST_COUNT.labels(...) call of its handler. -/
def endpointLabel : Endpoint → String × String
  | Endpoint.root => ("GET", "/")
  | Endpoint.health => ("GET", "/health")
  | Endpoint.getUser _ => ("GET", "/api/users/\x7buser_id\x7d")
  | Endpoint.createUser => ("POST", "/api/users")
  | Endpoint.simulateError => ("GET", "/api/simulate-error")
  | Endpoint.customMetrics => ("GET", "/custom-metrics")

/-- Timestamp field of a health response (0 for the impossible error case). -/
def healthTimestamp : HttpResult HealthPayload → ℚ
  | HttpResult.ok p => p.timestamp
  | HttpResult.httpError _ _ => 0

/-- Outcome of one attempt in test_api.py: either a response with a status
code, or a transport-level exception caught inside test_endpoint. -/
inductive AttemptResult
  | status (code : ℕ)
  | transportError (msg : String)
  deriving DecidableEq, Repr

/-- The success flag test_endpoint reports for one attempt: status < 400 for
a received response, false when the request raised. -/
def test_endpoint_success : AttemptResult → Bool
  | AttemptResult.status code => decide (code < 400)
  | AttemptResult.transportError _ => false

/-- The aggregate the generate_traffic loop maintains. -/
structure TrafficStats where
  total : ℕ
  successful : ℕ
  deriving DecidableEq, Repr

/-- One iteration of the generate_traffic loop body: total_requests += 1,
and successful_requests += 1 when the attempt's success flag is set. -/
def stepStats (s : TrafficStats) (r : AttemptResult) : TrafficStats :=
  { total := s.total + 1,
    successful := if test_endpoint_success r then s.successful + 1 else s.successful }

/-- The stats generate_traffic holds after processing a sequence of attempt
outcomes, starting from zero counts. The loop body never rethrows (the
try/except lives inside test_endpoint), so every outcome in the sequence is
processed. -/
def generate_traffic (rs : List AttemptResult) : TrafficStats :=
  rs.foldl stepStats { total := 0, successful := 0 }

/-- success_rate as computed for the progress lines and the final summary:
(successful / total) * 100, and 0 when no request was issued yet. -/
def success_rate (s : TrafficStats) : ℚ :=
  if s.total = 0 then 0 else ((s.successful : ℚ) / (s.total : ℚ)) * 100

/-- Helper: the foldl of the loop body adds the number of processed attempts
to the running total. -/
theorem foldl_stepStats_total (rs : List AttemptResult) (s : TrafficStats) :
    (rs.foldl stepStats s).total = s.total + rs.length := by
  induction rs generalizing s with
  | nil => simp
  | cons a t ih =>
      simp only [List.foldl_cons, List.length_cons, ih, stepStats]
      omega

/-- Helper: the foldl of the loop body adds the number of successful attempts
to the running success count. -/
theorem foldl_stepStats_successful (rs : List AttemptResult) (s : TrafficStats) :
    (rs.foldl stepStats s).successful =
      s.successful + (rs.filter test_endpoint_success).length := by
  induction rs generalizing s with
  | nil => simp
  | cons a t ih =>
      cases h : test_endpoint_success a <;>
        simp [List.foldl_cons, List.filter_cons, h, ih, stepStats]
      all_goals omega

/-- C1: in both operations (get_user and create_user), every span that is
opened is closed exactly once before the handler returns, on every exit path:
get_user opens and closes exactly the span simulate_database_query both on
the success path and on the 404 failure path (the context manager ends the
span while the HTTPException propagates), and create_user opens and closes
exactly validate_user_data then database_insert. -/
theorem C1_spans_closed_once (user_id new_user_id : ℤ) (u uv ud : ℚ) :
    spanStarts (get_user user_id u).1 = ["simulate_database_query"] ∧
    spanEnds (get_user user_id u).1 = ["simulate_database_query"] ∧
    spanStarts (create_user new_user_id uv ud).1 = ["validate_user_data", "database_insert"] ∧
    spanEnds (create_user new_user_id uv ud).1 = ["validate_user_data", "database_insert"] := by
  refine ⟨?_, ?_, ?_, ?_⟩
  · rcases eq_or_ne user_id 404 with h | h <;> simp [get_user, spanStarts, h]
  · rcases eq_or_ne user_id 404 with h | h <;> simp [get_user, spanEnds, h]
  · simp [create_user, spanStarts]
  · simp [create_user, spanEnds]

/-- C2 (amended): every request dispatched to one of the five
counter-instrumented handlers of main.py (root, health, get_user,
create_user, simulate_error) increments exactly one (method, route) counter
label combination exactly once, and that increment is the first event of the
handler, before any simulated latency, span, or failure decision. The
custom-metrics exposition endpoint is excluded: its handler increments no
counter. -/
theorem C2_counter_once_before_work (ep : Endpoint) (env : Env)
    (h : ep ≠ Endpoint.customMetrics) :
    counterIncs (endpointEvents ep env) = [endpointLabel ep] ∧
    (endpointEvents ep env).head? =
      some (Event.counterInc (endpointLabel ep).1 (endpointLabel ep).2) := by
  cases ep with
  | customMetrics => exact absurd rfl h
  | getUser uid =>
      rcases eq_or_ne uid 404 with h4 | h4 <;>
        simp [endpointEvents, endpointLabel, get_user, counterIncs, h4]
  | _ =>
      simp [endpointEvents, endpointLabel, root, health_check, create_user,
        simulate_error, counterIncs]

/-- Witness for C2: the get_user endpoint at user_id 123 increments exactly
the label (GET, /api/users/\x7buser_id\x7d), as its first event. -/
theorem C2_counter_once_before_work_witness :
    counterIncs (endpointEvents (Endpoint.getUser 123) ⟨1/2, 1/2, 1/2, 1234, 0⟩) =
      [("GET", "/api/users/\x7buser_id\x7d")] ∧
    (endpointEvents (Endpoint.getUser 123) ⟨1/2, 1/2, 1/2, 1234, 0⟩).head? =
      some (Event.counterInc "GET" "/api/users/\x7buser_id\x7d") :=
  C2_counter_once_before_work (Endpoint.getUser 123) ⟨1/2, 1/2, 1/2, 1234, 0⟩ (by simp)

/-- Counterexample for C2 as stated: the custom-metrics endpoint of main.py
is served by a handler that increments no request counter at all, so it is
not the case that every request to any endpoint increments exactly one
counter label combination exactly once. -/
theorem C2_counterexample_custom_metrics :
    counterIncCount (endpointEvents Endpoint.customMetrics ⟨0, 0, 0, 0, 0⟩) = 0 ∧
    ¬ counterIncCount (endpointEvents Endpoint.customMetrics ⟨0, 0, 0, 0, 0⟩) = 1 := by
  constructor <;> simp [endpointEvents, custom_metrics, counterIncCount, counterIncs]

/-- C3: for every integer user_id other than 404 and every unit random sample
u in [0,1), get_user returns status 200 with user_id, username user_\x7bid\x7d,
email user_\x7bid\x7d@example.com, and a processing_time equal to the latency
sample uniform(0.1, 0.5), which lies in [0.1, 0.5). -/
theorem C3_fetch_user_ok (user_id : ℤ) (u : ℚ)
    (hne : user_id ≠ 404) (h0 : 0 ≤ u) (h1 : u < 1) :
    (get_user user_id u).2 = HttpResult.ok
      { user_id := user_id,
        username := "user_" ++ toString user_id,
        email := "user_" ++ toString user_id ++ "@example.com",
        processing_time := pyUniform (1/10) (1/2) u } ∧
    httpStatus (get_user user_id u).2 = 200 ∧
    1/10 ≤ pyUniform (1/10) (1/2) u ∧ pyUniform (1/10) (1/2) u < 1/2 := by
  refine ⟨?_, ?_, ?_, ?_⟩
  · simp [get_user, hne]
  · simp [get_user, hne, httpStatus]
  · unfold pyUniform; nlinarith
  · unfold pyUniform; nlinarith

/-- Witness for C3: get_user on id 123 with unit sample one half returns the
200 payload user_123 / user_123@example.com with latency 0.3. -/
theorem C3_fetch_user_ok_witness :
    (123 : ℤ) ≠ 404 ∧ (0 : ℚ) ≤ 1/2 ∧ (1/2 : ℚ) < 1 ∧
    (get_user 123 (1/2)).2 = HttpResult.ok
      { user_id := 123, username := "user_123", email := "user_123@example.com",
        processing_time := 3/10 } := by
  refine ⟨by decide, by norm_num, by norm_num, ?_⟩
  have h := (C3_fetch_user_ok 123 (1/2) (by decide) (by norm_num) (by norm_num)).1
  rw [h]
  norm_num [pyUniform]
  exact ⟨by rfl, by rfl⟩

/-- C4: get_user on user_id 404 always raises HTTPException 404 with detail
"User not found"; before the span closes, the span is marked as error
(error = true and error.message = "User not found" are the last attribute
writes, immediately followed by the single span end). -/
theorem C4_fetch_user_404 (u : ℚ) :
    (get_user 404 u).2 = HttpResult.httpError 404 "User not found" ∧
    httpStatus (get_user 404 u).2 = 404 ∧
    List.IsSuffix
      [Event.setAttr "simulate_database_query" "error" (AttrVal.bool true),
       Event.setAttr "simulate_database_query" "error.message"
         (AttrVal.str "User not found"),
       Event.spanEnd "simulate_database_query"]
      (get_user 404 u).1 ∧
    spanEnds (get_user 404 u).1 = ["simulate_database_query"] := by
  refine ⟨by simp [get_user], by simp [get_user, httpStatus], ?_, by simp [get_user, spanEnds]⟩
  simp only [get_user, if_pos]
  exact List.suffix_append _ _

/-- C5 (amended): one duration observation is recorded after a get_user
success completion and after every create_user completion; on the get_user
404 failure path the HTTPException is raised before the observe call, so no
duration sample is recorded there. -/
theorem C5_duration_observed (user_id new_user_id : ℤ) (u uv ud : ℚ) :
    observeCount (get_user user_id u).1 = (if user_id = 404 then 0 else 1) ∧
    observeCount (create_user new_user_id uv ud).1 = 1 := by
  constructor
  · rcases eq_or_ne user_id 404 with h | h <;> simp [get_user, observeCount, h]
  · simp [create_user, observeCount]

/-- Counterexample for C5 as stated: the completion of FetchUser on the 404
failure path records no duration sample at all — get_user 404 ends in the
404 HTTPException and its event trace contains zero observe events. -/
theorem C5_counterexample_404_no_observation :
    (get_user 404 0).2 = HttpResult.httpError 404 "User not found" ∧
    observeCount (get_user 404 0).1 = 0 := by
  constructor <;> simp [get_user, observeCount]

/-- C6: create_user always returns status 200 with the generated user id
(which random.randint constrains to [1000, 9999] inclusive), created = true,
username and email derived from that id, and a processing_time equal to the
sum of the two stage latencies, the first drawn from [0.05, 0.15) and the
second from [0.15, 0.65). -/
theorem C6_create_user_ok (new_user_id : ℤ) (uv ud : ℚ)
    (hlo : 1000 ≤ new_user_id) (hhi : new_user_id ≤ 9999)
    (hv0 : 0 ≤ uv) (hv1 : uv < 1) (hd0 : 0 ≤ ud) (hd1 : ud < 1) :
    (create_user new_user_id uv ud).2 = HttpResult.ok
      { user_id := new_user_id,
        username := "user_" ++ toString new_user_id,
        email := "user_" ++ toString new_user_id ++ "@example.com",
        created := true,
        processing_time := pyUniform (1/20) (3/20) uv + pyUniform (3/20) (13/20) ud } ∧
    httpStatus (create_user new_user_id uv ud).2 = 200 ∧
    1000 ≤ new_user_id ∧ new_user_id ≤ 9999 ∧
    1/20 ≤ pyUniform (1/20) (3/20) uv ∧ pyUniform (1/20) (3/20) uv < 3/20 ∧
    3/20 ≤ pyUniform (3/20) (13/20) ud ∧ pyUniform (3/20) (13/20) ud < 13/20 := by
  refine ⟨rfl, rfl, hlo, hhi, ?_, ?_, ?_, ?_⟩ <;> (unfold pyUniform; nlinarith)

/-- Witness for C6: create_user with id 1234 and both unit samples one half
returns the 200 payload user_1234 with elapsed 0.1 + 0.4 = 0.5 seconds. -/
theorem C6_create_user_ok_witness :
    (1000 : ℤ) ≤ 1234 ∧ (1234 : ℤ) ≤ 9999 ∧
    (create_user 1234 (1/2) (1/2)).2 = HttpResult.ok
      { user_id := 1234, username := "user_1234", email := "user_1234@example.com",
        created := true, processing_time := 1/2 } := by
  refine ⟨by decide, by decide, ?_⟩
  have h := (C6_create_user_ok 1234 (1/2) (1/2) (by decide) (by decide)
    (by norm_num) (by norm_num) (by norm_num) (by norm_num)).1
  rw [h]
  norm_num [pyUniform]
  exact ⟨by rfl, by rfl⟩

/-- C7: simulate_error consumes one uniform draw u in [0, 1); it raises
HTTPException 500 with detail "Simulated internal server error" exactly when
u < 0.3, and otherwise returns status 200 with the no-error message. -/
theorem C7_maybe_fail (u : ℚ) (_h0 : 0 ≤ u) (_h1 : u < 1) :
    ((simulate_error u).2 = HttpResult.httpError 500 "Simulated internal server error"
      ↔ u < 3/10) ∧
    (¬ u < 3/10 →
      (simulate_error u).2 = HttpResult.ok { message := "Success! No error this time." }) ∧
    (u < 3/10 → httpStatus (simulate_error u).2 = 500) ∧
    (¬ u < 3/10 → httpStatus (simulate_error u).2 = 200) := by
  by_cases hu : u < 3/10 <;> simp [simulate_error, hu, httpStatus]

/-- Witness for C7: the draw 0.2 is below the 0.3 threshold and yields the
500 failure with the simulated-error detail. -/
theorem C7_maybe_fail_witness :
    (0 : ℚ) ≤ 1/5 ∧ (1/5 : ℚ) < 1 ∧
    (simulate_error (1/5)).2 = HttpResult.httpError 500 "Simulated internal server error" := by
  refine ⟨by norm_num, by norm_num, ?_⟩
  exact (C7_maybe_fail (1/5) (by norm_num) (by norm_num)).1.mpr (by norm_num)

/-- C8: over any non-empty sequence of attempt outcomes, the generate_traffic
loop counts every attempt in total_requests (a transport-level error is
processed as a failed attempt rather than terminating the fold), counts an
attempt successful exactly when its status is below 400, and reports a
success percentage equal to successful divided by total times 100 exactly. -/
theorem C8_traffic_stats (rs : List AttemptResult) (hne : rs ≠ []) :
    (generate_traffic rs).total = rs.length ∧
    (generate_traffic rs).successful = (rs.filter test_endpoint_success).length ∧
    (∀ code, test_endpoint_success (AttemptResult.status code) = decide (code < 400)) ∧
    (∀ msg, test_endpoint_success (AttemptResult.transportError msg) = false) ∧
    success_rate (generate_traffic rs) =
      ((rs.filter test_endpoint_success).length : ℚ) / (rs.length : ℚ) * 100 := by
  have ht : (generate_traffic rs).total = rs.length := by
    simpa using foldl_stepStats_total rs ⟨0, 0⟩
  have hs : (generate_traffic rs).successful = (rs.filter test_endpoint_success).length := by
    simpa using foldl_stepStats_successful rs ⟨0, 0⟩
  have hlen : ¬ rs.length = 0 := fun h0 => hne (List.length_eq_zero.mp h0)
  refine ⟨ht, hs, fun _ => rfl, fun _ => rfl, ?_⟩
  simp only [success_rate, ht, hs, if_neg hlen]

/-- Witness for C8: the outcome sequence status 200, status 404, transport
error gives total 3, successful 1, and success rate 100/3 percent. -/
theorem C8_traffic_stats_witness :
    (generate_traffic [AttemptResult.status 200, AttemptResult.status 404,
      AttemptResult.transportError "e"]).total = 3 ∧
    (generate_traffic [AttemptResult.status 200, AttemptResult.status 404,
      AttemptResult.transportError "e"]).successful = 1 ∧
    success_rate (generate_traffic [AttemptResult.status 200, AttemptResult.status 404,
      AttemptResult.transportError "e"]) = 100/3 := by
  have h := C8_traffic_stats
    [AttemptResult.status 200, AttemptResult.status 404, AttemptResult.transportError "e"]
    (by simp)
  refine ⟨?_, ?_, ?_⟩
  · rw [h.1]; rfl
  · rw [h.2.1]; simp [test_endpoint_success]
  · rw [h.2.2.2.2]; norm_num [test_endpoint_success]

/-- C9 (amended): every health_check call returns status 200 with payload
status "healthy" and timestamp equal to the time.time() reading taken during
the call; the timestamp of a later call strictly exceeds the earlier one
exactly when the wall-clock reading strictly increased between the two reads
(time.time() itself gives no such guarantee). -/
theorem C9_health_response (t t1 t2 : ℚ) (h : t1 < t2) :
    (health_check t).2 = HttpResult.ok { status := "healthy", timestamp := t } ∧
    httpStatus (health_check t).2 = 200 ∧
    healthTimestamp (health_check t1).2 < healthTimestamp (health_check t2).2 :=
  ⟨rfl, rfl, by simpa [health_check, healthTimestamp] using h⟩

/-- Witness for C9: with clock readings 1 and 2 the two health responses are
200 and carry strictly increasing timestamps. -/
theorem C9_health_response_witness :
    (1 : ℚ) < 2 ∧
    (health_check 0).2 = HttpResult.ok { status := "healthy", timestamp := 0 } ∧
    httpStatus (health_check 0).2 = 200 ∧
    healthTimestamp (health_check 1).2 < healthTimestamp (health_check 2).2 :=
  ⟨by norm_num, C9_health_response 0 1 2 (by norm_num)⟩

/-- Counterexample for C9 as stated: health_check reads the wall clock
time.time(), which may return the same value on two successive calls; when
both calls read 5, both return status 200 and timestamp 5, and the later
timestamp is not strictly greater than the earlier one. -/
theorem C9_counterexample_equal_clock :
    httpStatus (health_check 5).2 = 200 ∧
    healthTimestamp (health_check 5).2 = 5 ∧
    ¬ healthTimestamp (health_check 5).2 < healthTimestamp (health_check 5).2 := by
  refine ⟨rfl, rfl, ?_⟩
  simp [health_check, healthTimestamp]

/-- C10: only the get_user success path and create_user record a duration
observation; the root, health, simulate-error and custom-metrics handlers
increment their counters (custom-metrics aside) but record no duration sample
regardless of outcome, and the get_user 404 path records none either. -/
theorem C10_histogram_frame (user_id new_user_id : ℤ) (u uv ud t : ℚ) :
    observeCount (root).1 = 0 ∧
    observeCount (health_check t).1 = 0 ∧
    observeCount (simulate_error u).1 = 0 ∧
    observeCount (custom_metrics).1 = 0 ∧
    counterIncCount (root).1 = 1 ∧
    counterIncCount (health_check t).1 = 1 ∧
    counterIncCount (simulate_error u).1 = 1 ∧
    observeCount (get_user user_id u).1 = (if user_id = 404 then 0 else 1) ∧
    observeCount (create_user new_user_id uv ud).1 = 1 := by
  refine ⟨rfl, rfl, rfl, rfl, rfl, rfl, rfl, ?_, ?_⟩
  · rcases eq_or_ne user_id 404 with h | h <;> simp [get_user, observeCount, h]
  · simp [create_user, observeCount]
